import Mathlib

/-!
Verification of the title classifier in `classifier.py` (`classify_paper`).

The classifier lowercases a title, runs one negative-context regular
expression and an ordered table of 60 positive (pattern, tag) rules over it
with Python `re.search` semantics, and resolves conflicts with a weak-tag
filter. We embed the exact regular expressions appearing in the source as
values of a small regex AST `RE` (word boundaries, character classes,
star/plus/optional, alternation, literals) together with an executable
search function, and embed `classify_paper` on top of it. Character classes
(`\w`, `\s`) are modelled at their ASCII meaning, which covers every title
the rules can distinguish.
-/

/-- Python regex word character `\w` (ASCII fragment): letters, digits, underscore. -/
def isWordChar (c : Char) : Bool := c.isAlphanum || c = '_'

/-- Character class `[\w-]` used by the xeno and allo transplant patterns. -/
def isWordOrDash (c : Char) : Bool := isWordChar c || c = '-'

/-- Python regex whitespace `\s` (ASCII fragment). -/
def isSpaceChar (c : Char) : Bool :=
  c = ' ' || c = '\x09' || c = '\x0a' || c = '\x0d' || c = '\x0b' || c = '\x0c'

/-- The apostrophe character, as it occurs in the `hartmann\'?s?` pattern. -/
def apos : Char := Char.ofNat 39

/-- Regex abstract syntax: exactly the constructs used by the patterns in
`classifier.py`: literals, character classes with star/plus, an optional
single character, concatenation, alternation, and the word-boundary
assertion `\b`. `fail` matches nothing (empty alternation). -/
inductive RE where
  | fail : RE
  | eps : RE
  | ch (c : Char) : RE
  | star (p : Char → Bool) : RE
  | plus (p : Char → Bool) : RE
  | opt (c : Char) : RE
  | seq (a b : RE) : RE
  | alt (a b : RE) : RE
  | wb : RE

/-- Literal string as a regex (concatenation of its characters). -/
def strRE (s : String) : RE := s.data.foldr (fun c r => RE.seq (RE.ch c) r) RE.eps

/-- Alternation `(r1|r2|...)` of a list of regexes. -/
def altList : List RE → RE
  | [] => RE.fail
  | [r] => r
  | r :: rs => RE.alt r (altList rs)

/-- Whether an optional preceding character counts as a word character
(start of string counts as a non-word position). -/
def wordOpt : Option Char → Bool
  | none => false
  | some c => isWordChar c

/-- The `\b` assertion: word-character status changes between the previous
character and the next one (string ends count as non-word). -/
def wordBoundary (prev : Option Char) (s : List Char) : Bool :=
  wordOpt prev != (match s with | [] => false | c :: _ => isWordChar c)

/-- All ways a class-star can consume a prefix of the input: each state is
the character preceding the remaining suffix together with that suffix. -/
def starStates (p : Char → Bool) : Option Char → List Char → List (Option Char × List Char)
  | prev, [] => [(prev, [])]
  | prev, c :: rest =>
    (prev, c :: rest) :: (if p c then starStates p (some c) rest else [])

/-- All states (previous character, remaining suffix) reachable by matching
the regex against a prefix of `s`, given the character just before `s`.
Enumerating all states makes the search semantics existence of a match,
which is all `re.search` truthiness uses. -/
def charMatch : RE → Option Char → List Char → List (Option Char × List Char)
  | .fail, _, _ => []
  | .eps, prev, s => [(prev, s)]
  | .ch c, _, s =>
    match s with
    | [] => []
    | d :: rest => if d = c then [(some d, rest)] else []
  | .star p, prev, s => starStates p prev s
  | .plus p, _, s =>
    match s with
    | [] => []
    | d :: rest => if p d then starStates p (some d) rest else []
  | .opt c, prev, s =>
    (prev, s) ::
      (match s with
       | [] => []
       | d :: rest => if d = c then [(some d, rest)] else [])
  | .seq a b, prev, s => (charMatch a prev s).flatMap (fun st => charMatch b st.1 st.2)
  | .alt a b, prev, s => charMatch a prev s ++ charMatch b prev s
  | .wb, prev, s => if wordBoundary prev s then [(prev, s)] else []

/-- Does the regex match starting at some position of the suffix `s`, where
`prev` is the character just before `s`? -/
def searchFrom (r : RE) : Option Char → List Char → Bool
  | prev, [] => !(charMatch r prev []).isEmpty
  | prev, c :: rest => !(charMatch r prev (c :: rest)).isEmpty || searchFrom r (some c) rest

/-- Truthiness of Python `re.search(r, s)`: the regex matches somewhere in `s`. -/
def reSearch (r : RE) (s : String) : Bool := searchFrom r none s.data

/-- Python `str.lower` at its ASCII meaning, written on the character list
so that it evaluates by kernel reduction. -/
def pyLower (s : String) : String := String.mk (s.data.map Char.toLower)

/-- Builder for `\bw\b` patterns. -/
def wordRE (s : String) : RE := .seq .wb (.seq (strRE s) .wb)

/-- Builder for `\bstem\w*` patterns. -/
def stemRE (s : String) : RE := .seq .wb (.seq (strRE s) (.star isWordChar))

/-- Builder for `\bstem(alt1|alt2|...)\b` patterns. -/
def bddAlt (stem : String) (tails : List RE) : RE :=
  .seq .wb (.seq (strRE stem) (.seq (altList tails) .wb))

/-- Builder for the suffix families `\w+core(y|ies)\b`. -/
def yIes (core : String) : RE :=
  .seq (.plus isWordChar) (.seq (strRE core) (.seq (.alt (.ch 'y') (strRE "ies")) .wb))

/-- The tag of the Hartmann rule, the string "Hartmann's". -/
def hartmannsTag : String := "Hartmann" ++ String.mk [apos] ++ "s"

/-- The negative-context pattern of `classifier.py` line 20:
`\b(stem cell|bone marrow|hematopoietic|fecal|fmt|microbiota|mitochondria|corneal|renal replacement)\b`. -/
def medical_context_pattern : RE :=
  .seq .wb (.seq
    (altList (["stem cell", "bone marrow", "hematopoietic", "fecal", "fmt",
               "microbiota", "mitochondria", "corneal", "renal replacement"].map strRE))
    .wb)

/-- The ordered positive rule table `surgical_patterns` of `classifier.py`
lines 24-85, each regex transliterated into the `RE` AST in source order. -/
def surgical_patterns : List (RE × String) := [
  (bddAlt "surg" [strRE "eries", strRE "ery", strRE "ical",
                  .seq (strRE "eon") (.opt 's')], "Surgery (General)"),
  (bddAlt "operat" [.seq (strRE "ion") (.opt 's'), strRE "ive"], "Operative"),
  (.seq .wb (.seq (strRE "xeno") (.seq (.star isWordOrDash)
     (.seq (strRE "transplant") (.star isWordChar)))), "Xenotransplant"),
  (.seq .wb (.seq (strRE "allo") (.seq (.star isWordOrDash)
     (.seq (strRE "transplant") (.star isWordChar)))), "Allotransplant"),
  (wordRE "orthotopic", "Orthotopic Tx"),
  (.seq (.star isWordChar) (.seq (strRE "transplant") (.star isWordChar)),
     "Transplant (Generic)"),
  (yIes "ectom", "Excision (-ectomy)"),
  (yIes "otom", "Incision (-otomy)"),
  (yIes "ostom", "Stoma (-ostomy)"),
  (yIes "plast", "Repair (-plasty)"),
  (yIes "pex", "Fixation (-pexy)"),
  (yIes "rraph", "Suture (-rraphy)"),
  (.seq (.plus isWordChar) (.seq (strRE "desis") .wb), "Fusion"),
  (wordRE "resection", "Resection"),
  (wordRE "excision", "Excision"),
  (wordRE "ablation", "Ablation"),
  (wordRE "debridement", "Debridement"),
  (stemRE "amputat", "Amputation"),
  (wordRE "revascularization", "Revascularization"),
  (bddAlt "anastomos" [strRE "is", strRE "es"], "Anastomosis"),
  (wordRE "cautery", "Cautery"),
  (bddAlt "ligat" [strRE "ion", strRE "ure"], "Ligation"),
  (bddAlt "incis" [strRE "ion", strRE "ional"], "Incision"),
  (wordRE "enucleation", "Enucleation"),
  (wordRE "decortication", "Decortication"),
  (wordRE "exenteration", "Exenteration"),
  (wordRE "fulguration", "Fulguration"),
  (wordRE "marsupialization", "Marsupialization"),
  (.seq .wb (.seq
     (altList (["hernia", "valve", "aneurysm", "fracture", "tendon",
                "cleft", "mitral", "aortic"].map strRE))
     (.seq (.plus isSpaceChar) (.seq (strRE "repair") .wb))), "Specific Repair"),
  (stemRE "laparoscop", "Laparoscopic"),
  (wordRE "robotic", "Robotic"),
  (wordRE "endovascular", "Endovascular"),
  (wordRE "percutaneous", "Percutaneous"),
  (stemRE "thoracoscop", "Thoracoscopic"),
  (wordRE "transcatheter", "Transcatheter"),
  (stemRE "microsurg", "Microsurgery"),
  (wordRE "transanal", "Transanal"),
  (wordRE "sternotomy", "Sternotomy"),
  (wordRE "craniotomy", "Craniotomy"),
  (wordRE "thoracotomy", "Thoracotomy"),
  (wordRE "laparotomy", "Laparotomy"),
  (stemRE "arthroscop", "Arthroscopy"),
  (wordRE "allograft", "Allograft"),
  (wordRE "xenograft", "Xenograft"),
  (wordRE "autograft", "Autograft"),
  (bddAlt "prosthes" [strRE "is", strRE "es"], "Prosthesis"),
  (wordRE "flap", "Flap"),
  (wordRE "donor", "Donor"),
  (wordRE "recipient", "Recipient"),
  (wordRE "whipple", "Whipple"),
  (wordRE "roux-en-y", "Roux-en-Y"),
  (.seq .wb (.seq (strRE "hartmann") (.seq (.opt apos) (.seq (.opt 's') .wb))),
     hartmannsTag),
  (wordRE "nissen", "Nissen"),
  (wordRE "fundoplication", "Fundoplication"),
  (wordRE "tevar", "TEVAR"),
  (wordRE "evar", "EVAR"),
  (wordRE "cabg", "CABG"),
  (wordRE "poucho", "Pouch"),
  (wordRE "metastasectomy", "Metastasectomy"),
  (wordRE "lymphadenectomy", "Lymphadenectomy")]

/-- The weak-tag list of `classifier.py` line 95. -/
def weak_tags : List String := ["Transplant (Generic)", "Donor", "Recipient"]

/-- A Python value passed to `classify_paper`: either a string title or any
non-string value (None, NaN, numbers, ...), abstracted by an index since
`classify_paper` only tests `isinstance(title, str)`. -/
inductive PyValue where
  | str (s : String) : PyValue
  | nonString (v : Nat) : PyValue

/-- The `matches` list collected by the loop at `classifier.py` lines 87-90,
parameterised by the rule table: tags of the rules whose pattern matches the
lowercased title, in table order. -/
def collected_with (rules : List (RE × String)) (title : String) : List String :=
  rules.filterMap (fun pt => if reSearch pt.1 (pyLower title) then some pt.2 else none)

/-- The string-input branch of `classify_paper` (`classifier.py` lines 17-104),
parameterised by the rule table. -/
def classify_with (rules : List (RE × String)) (title : String) : String × Nat × String :=
  match collected_with rules title with
  | [] => ("Non-Surgical", 0, "No keywords")
  | m0 :: _ =>
    if reSearch medical_context_pattern (pyLower title) then
      match (collected_with rules title).filter (fun m => !(weak_tags.contains m)) with
      | [] => ("Non-Surgical", 0, "Excluded: Medical Context (" ++ m0 ++ ")")
      | s0 :: _ => ("Surgical", 1, s0 ++ " (despite medical context)")
    else
      ("Surgical", 1, m0)

/-- `classify_paper` of `classifier.py` lines 13-104. -/
def classify_paper : PyValue → String × Nat × String
  | .nonString _ => ("Non-Surgical", 0, "No Title")
  | .str title => classify_with surgical_patterns title

/-! ## Helper lemmas -/

/-- A collected tag is the tag of some entry of the rule table. -/
lemma mem_table_of_mem_collected (rules : List (RE × String)) (title m : String)
    (h : m ∈ collected_with rules title) : m ∈ rules.map Prod.snd := by
  simp only [collected_with, List.mem_filterMap] at h
  obtain ⟨pt, hpt, hif⟩ := h
  by_cases hs : reSearch pt.1 (pyLower title) = true
  · rw [if_pos hs] at hif
    exact List.mem_map.mpr ⟨pt, hpt, Option.some.inj hif⟩
  · rw [if_neg hs] at hif
    cases hif

/-- Every tag in the source's rule table is a non-empty string, so collected
tags are non-empty. -/
lemma collected_tag_ne_empty (title m : String)
    (h : m ∈ collected_with surgical_patterns title) : m ≠ "" := by
  have hm := mem_table_of_mem_collected surgical_patterns title m h
  have hall : ∀ x ∈ surgical_patterns.map Prod.snd, x ≠ "" := by decide
  exact hall m hm

/-- A string append with a non-empty right part is non-empty. -/
lemma append_ne_empty (a b : String) (hb : b.data ≠ []) : a ++ b ≠ "" := by
  intro h
  have hd : a.data ++ b.data = [] := by
    have := congrArg String.data h
    rwa [String.data_append] at this
  exact hb (List.append_eq_nil.mp hd).2

/-- Case analysis on the result of the string branch of `classify_paper`:
it is "No keywords", a medical-context exclusion citing a collected tag, a
strong override, or the first collected tag with no context. -/
lemma classify_with_cases (title : String) :
    classify_with surgical_patterns title = ("Non-Surgical", 0, "No keywords") ∨
    (∃ m0, m0 ∈ collected_with surgical_patterns title ∧
      classify_with surgical_patterns title =
        ("Non-Surgical", 0, "Excluded: Medical Context (" ++ m0 ++ ")")) ∨
    (∃ s0, classify_with surgical_patterns title =
        ("Surgical", 1, s0 ++ " (despite medical context)")) ∨
    (∃ m0, m0 ∈ collected_with surgical_patterns title ∧
      classify_with surgical_patterns title = ("Surgical", 1, m0)) := by
  unfold classify_with
  cases hc : collected_with surgical_patterns title with
  | nil => left; rfl
  | cons m0 rest =>
    by_cases hctx : reSearch medical_context_pattern (pyLower title) = true
    · simp only [hctx, if_true]
      cases hf : (m0 :: rest).filter (fun m => !(weak_tags.contains m)) with
      | nil =>
        right; left
        exact ⟨m0, List.mem_cons_self m0 rest, rfl⟩
      | cons s0 ss =>
        right; right; left
        exact ⟨s0, rfl⟩
    · simp only [hctx, if_false]
      right; right; right
      exact ⟨m0, List.mem_cons_self m0 rest, rfl⟩

/-! ## Claims -/

/-- C1: for every input (string or not), the score component is 1 exactly
when the classification is "Surgical", and the reason string is non-empty. -/
theorem score_iff_surgical_and_reason_nonempty (v : PyValue) :
    ((classify_paper v).2.1 = 1 ↔ (classify_paper v).1 = "Surgical") ∧
      (classify_paper v).2.2 ≠ "" := by
  cases v with
  | nonString n =>
    refine ⟨?_, ?_⟩
    · show (0 : Nat) = 1 ↔ ("Non-Surgical" : String) = "Surgical"
      decide
    · show ("No Title" : String) ≠ ""
      decide
  | str title =>
    have hcp : classify_paper (.str title) = classify_with surgical_patterns title := rfl
    rcases classify_with_cases title with h | ⟨m0, hm, h⟩ | ⟨s0, h⟩ | ⟨m0, hm, h⟩ <;>
      rw [hcp, h]
    · refine ⟨?_, ?_⟩
      · show (0 : Nat) = 1 ↔ ("Non-Surgical" : String) = "Surgical"
        decide
      · show ("No keywords" : String) ≠ ""
        decide
    · refine ⟨?_, append_ne_empty _ ")" (by decide)⟩
      show (0 : Nat) = 1 ↔ ("Non-Surgical" : String) = "Surgical"
      decide
    · refine ⟨?_, append_ne_empty _ " (despite medical context)" (by decide)⟩
      show (1 : Nat) = 1 ↔ ("Surgical" : String) = "Surgical"
      decide
    · refine ⟨?_, collected_tag_ne_empty title m0 hm⟩
      show (1 : Nat) = 1 ↔ ("Surgical" : String) = "Surgical"
      decide

/-- C2: every non-string input (None and any other non-string value) yields
exactly ("Non-Surgical", 0, "No Title"). -/
theorem non_string_input_no_title (n : Nat) :
    classify_paper (.nonString n) = ("Non-Surgical", 0, "No Title") := rfl

/-- C3: when no positive rule matches the lowercased title, the result is
("Non-Surgical", 0, "No keywords"), whatever the negative context did. -/
theorem no_rule_matches_no_keywords (title : String)
    (h : ∀ pt ∈ surgical_patterns, reSearch pt.1 (pyLower title) = false) :
    classify_paper (.str title) = ("Non-Surgical", 0, "No keywords") := by
  have hc : collected_with surgical_patterns title = [] := by
    simp only [collected_with, List.filterMap_eq_nil_iff]
    intro pt hpt
    simp [h pt hpt]
  show classify_with surgical_patterns title = _
  unfold classify_with
  rw [hc]

/-- Witness for C3 at the title "DNA repair mechanisms". -/
theorem no_rule_matches_no_keywords_witness :
    classify_paper (.str "DNA repair mechanisms") = ("Non-Surgical", 0, "No keywords") :=
  no_rule_matches_no_keywords "DNA repair mechanisms" (by decide)

/-- C4: when the negative-context pattern matches and every collected tag is
weak, the title is excluded with the first collected tag cited. -/
theorem weak_tags_medical_context_excluded (title t : String) (ts : List String)
    (hctx : reSearch medical_context_pattern (pyLower title) = true)
    (hc : collected_with surgical_patterns title = t :: ts)
    (hweak : ∀ m ∈ t :: ts, m ∈ weak_tags) :
    classify_paper (.str title) =
      ("Non-Surgical", 0, "Excluded: Medical Context (" ++ t ++ ")") := by
  have hf : (t :: ts).filter (fun m => !(weak_tags.contains m)) = [] := by
    rw [List.filter_eq_nil_iff]
    intro a ha
    have haw : a ∈ weak_tags := hweak a ha
    simp only [weak_tags, List.mem_cons, List.not_mem_nil, or_false] at haw
    rcases haw with rfl | rfl | rfl <;> decide
  show classify_with surgical_patterns title = _
  unfold classify_with
  rw [hc]
  simp only [hctx, if_true, hf]

/-- Witness for C4 at the title "Stem cell transplantation outcomes". -/
theorem weak_tags_medical_context_excluded_witness :
    classify_paper (.str "Stem cell transplantation outcomes") =
      ("Non-Surgical", 0, "Excluded: Medical Context (Transplant (Generic))") :=
  weak_tags_medical_context_excluded "Stem cell transplantation outcomes"
    "Transplant (Generic)" [] (by decide) (by decide) (by decide)

/-- C5: when the negative-context pattern matches and some collected tag is
strong, the result is Surgical and cites the first strong tag, the first
collected tag in table order outside the weak set. -/
theorem strong_tag_overrides_medical_context (title s0 : String) (ss : List String)
    (hctx : reSearch medical_context_pattern (pyLower title) = true)
    (hs : (collected_with surgical_patterns title).filter
            (fun m => !(weak_tags.contains m)) = s0 :: ss) :
    classify_paper (.str title) = ("Surgical", 1, s0 ++ " (despite medical context)") := by
  cases hc : collected_with surgical_patterns title with
  | nil => rw [hc] at hs; simp at hs
  | cons m0 rest =>
    rw [hc] at hs
    show classify_with surgical_patterns title = _
    unfold classify_with
    rw [hc]
    simp only [hctx, if_true, hs]

/-- Witness for C5 at the title "Bowel resection after stem cell transplantation". -/
theorem strong_tag_overrides_medical_context_witness :
    classify_paper (.str "Bowel resection after stem cell transplantation") =
      ("Surgical", 1, "Resection (despite medical context)") :=
  strong_tag_overrides_medical_context "Bowel resection after stem cell transplantation"
    "Resection" [] (by decide) (by decide)

/-- C6 (code evaluated at the failing input): the table's named-procedure
rule is `\bpoucho\b` with tag "Pouch", a typo for "pouch", so the word
"pouch" fires no rule and "Ileal pouch outcomes" comes out Non-Surgical
with "No keywords" instead of Surgical. -/
theorem pouch_title_not_recognized :
    classify_paper (.str "Ileal pouch outcomes") = ("Non-Surgical", 0, "No keywords") := rfl

/-- C7: classification and score are invariant under permutation of the rule
table; only the reason component can depend on the order. -/
theorem classification_invariant_under_rule_permutation
    (rules : List (RE × String)) (hperm : rules.Perm surgical_patterns) (title : String) :
    (classify_with rules title).1 = (classify_with surgical_patterns title).1 ∧
      (classify_with rules title).2.1 = (classify_with surgical_patterns title).2.1 := by
  have hp : (collected_with rules title).Perm (collected_with surgical_patterns title) :=
    hperm.filterMap _
  unfold classify_with
  cases h1 : collected_with rules title with
  | nil =>
    cases h2 : collected_with surgical_patterns title with
    | nil => exact ⟨rfl, rfl⟩
    | cons b bs =>
      rw [h1, h2] at hp
      simpa using hp.length_eq
  | cons a as =>
    cases h2 : collected_with surgical_patterns title with
    | nil =>
      rw [h1, h2] at hp
      simpa using hp.length_eq
    | cons b bs =>
      rw [h1, h2] at hp
      have hpf : ((a :: as).filter (fun m => !(weak_tags.contains m))).Perm
          ((b :: bs).filter (fun m => !(weak_tags.contains m))) := hp.filter _
      by_cases hctx : reSearch medical_context_pattern (pyLower title) = true
      · simp only [hctx, if_true]
        cases hf1 : (a :: as).filter (fun m => !(weak_tags.contains m)) with
        | nil =>
          cases hf2 : (b :: bs).filter (fun m => !(weak_tags.contains m)) with
          | nil => exact ⟨rfl, rfl⟩
          | cons c cs =>
            rw [hf1, hf2] at hpf
            simpa using hpf.length_eq
        | cons c cs =>
          cases hf2 : (b :: bs).filter (fun m => !(weak_tags.contains m)) with
          | nil =>
            rw [hf1, hf2] at hpf
            simpa using hpf.length_eq
          | cons d ds => exact ⟨rfl, rfl⟩
      · simp only [hctx, if_false]
        exact ⟨rfl, rfl⟩

/-- Witness for C7: the reversed rule table gives the same classification
and score on "hernia repair". -/
theorem classification_invariant_under_rule_permutation_witness :
    (classify_with surgical_patterns.reverse "hernia repair").1 =
        (classify_with surgical_patterns "hernia repair").1 ∧
      (classify_with surgical_patterns.reverse "hernia repair").2.1 =
        (classify_with surgical_patterns "hernia repair").2.1 :=
  classification_invariant_under_rule_permutation surgical_patterns.reverse
    (List.reverse_perm surgical_patterns) "hernia repair"

/-- C8: bare "repair" fires no rule and is Non-Surgical, while
"hernia repair" is Surgical with reason "Specific Repair". -/
theorem bare_repair_vs_hernia_repair :
    classify_paper (.str "repair") = ("Non-Surgical", 0, "No keywords") ∧
      classify_paper (.str "hernia repair") = ("Surgical", 1, "Specific Repair") :=
  ⟨rfl, rfl⟩

/-- C9: "Laparoscopic cholecystectomy outcomes" reports the -ectomy tag,
whose rule precedes the Laparoscopic rule in the table order. -/
theorem laparoscopic_cholecystectomy_reports_ectomy :
    classify_paper (.str "Laparoscopic cholecystectomy outcomes") =
        ("Surgical", 1, "Excision (-ectomy)") ∧
      (surgical_patterns.map Prod.snd).indexOf "Excision (-ectomy)" <
        (surgical_patterns.map Prod.snd).indexOf "Laparoscopic" :=
  ⟨rfl, by decide⟩

/-- C10: the empty string is a valid string title: it reaches the keyword
scan and yields "No keywords", not the non-string fallback "No Title". -/
theorem empty_string_title_no_keywords :
    classify_paper (.str "") = ("Non-Surgical", 0, "No keywords") := rfl
